import Mathlib

/-!
Verification of the Exercise Evaluation & Repetition-Counting Engine of the
Physical Therapy AR application (`Physical Therapy AR.py`).

The Python source works over floating-point numbers; the embedding models
them as real numbers.  `atan2` is modelled by the complex argument, whose
range is `(-π, π]`, matching `np.arctan2`.  The per-frame measurement pushed
into the smoothing history is either a scalar (squat) or a pair
(arm raise, shoulder shrug); Python stores these dynamically in one deque,
which is modelled by the inductive type `Meas`.  Operations that would raise
a Python `TypeError` (summing a history whose elements have the wrong shape)
are modelled by `Option`, with `none` standing for an uncaught exception.
-/

/-- A 2-D point `[x, y]`, as built from a landmark's `.x`/`.y` fields. -/
abbrev Point : Type := ℝ × ℝ

/-- `np.arctan2 y x`, modelled as the argument of the complex number
`x + y*I`, with range `(-π, π]`. -/
noncomputable def atan2 (y x : ℝ) : ℝ := Complex.arg ⟨x, y⟩

/-- `calculate_angle(a, b, c)`: the angle at vertex `b`, computed as the
absolute difference of the two `atan2` directions converted to degrees,
folded into `[0, 360)` and then reflected below `180`. -/
noncomputable def calculate_angle (a b c : Point) : ℝ :=
  let radians := atan2 (c.2 - b.2) (c.1 - b.1) - atan2 (a.2 - b.2) (a.1 - b.1)
  let angle := |radians * 180 / Real.pi|
  if angle > 180 then 360 - angle else angle

/-- The subset of MediaPipe pose landmarks consumed by `verify_exercise`,
each a 2-D point (for the shoulder-shrug branch only the `y` coordinates,
i.e. the second components, are read). -/
structure LandmarkSet where
  left_shoulder : Point
  right_shoulder : Point
  left_elbow : Point
  right_elbow : Point
  left_wrist : Point
  right_wrist : Point
  left_hip : Point
  left_knee : Point
  left_ankle : Point
  left_ear : Point
  right_ear : Point

/-- One entry of the smoothing history `angle_history`: Python pushes a
scalar angle for the squat and a 2-tuple for arm raise / shoulder shrug. -/
inductive Meas where
  | scalar (x : ℝ)
  | pair (l r : ℝ)

/-- Reading a history entry as a scalar (`sum(angle_history)`); a tuple
entry would make Python's `sum` raise, hence `none`. -/
def Meas.val? : Meas → Option ℝ
  | .scalar x => some x
  | .pair _ _ => none

/-- Reading a history entry's first component (`a[0]`); a scalar entry is
not subscriptable in Python, hence `none`. -/
def Meas.fst? : Meas → Option ℝ
  | .scalar _ => none
  | .pair l _ => some l

/-- Reading a history entry's second component (`a[1]`). -/
def Meas.snd? : Meas → Option ℝ
  | .scalar _ => none
  | .pair _ r => some r

/-- `angle_history.append(m)` followed by `if len(angle_history) > 10:
angle_history.popleft()` — the bounded push of the smoothing history.
(The deque is created with `maxlen=10`, which yields the same bounded
behaviour for histories of length at most 10.) -/
def push (angle_history : List Meas) (m : Meas) : List Meas :=
  let h := angle_history ++ [m]
  if 10 < h.length then h.drop 1 else h

/-- `sum([f(a) for a in h])` where each element is read through `f`;
`none` when any element has the wrong shape for `f`. -/
def sumWith (f : Meas → Option ℝ) : List Meas → Option ℝ
  | [] => some 0
  | a :: t =>
    match f a, sumWith f t with
    | some b, some s => some (b + s)
    | _, _ => none

/-- The running average `sum(...) / len(h)` taken through projection `f`. -/
noncomputable def avgWith (f : Meas → Option ℝ) (h : List Meas) : Option ℝ :=
  (sumWith f h).map (fun s => s / (h.length : ℝ))

/-- The feedback strings produced by `verify_exercise`, one constructor per
textual template of the source; constructors carry the averages that the
source interpolates into the string (`{avg:.1f}` etc.). -/
inductive Feedback where
  | noPoseDetected
  | armsRaisedCorrectly
  | raiseBothArmsHigher (avgLeft avgRight : ℝ)
  | goodSquatForm (avg : ℝ)
  | squatLower (avg : ℝ)
  | dontSquatTooLow (avg : ℝ)
  | goodShoulderShrug
  | raiseShouldersHigher (avgLeft avgRight : ℝ)
  | unableToDetect (exercise_type : String)
  | unknownExerciseType

/-- `verify_exercise(results, exercise_type, angle_history)`: returns the
verdict, the feedback and the updated history; `none` models an uncaught
Python exception (summing a history whose entries have the wrong shape for
the branch).  The `results.pose_landmarks is None` check comes first, before
any branch on the exercise type. -/
noncomputable def verify_exercise (pose_landmarks : Option LandmarkSet)
    (exercise_type : String) (angle_history : List Meas) :
    Option (Bool × Feedback × List Meas) :=
  match pose_landmarks with
  | none => some (false, Feedback.noPoseDetected, angle_history)
  | some landmarks =>
    if exercise_type = "arm_raise" then
      let left_angle := calculate_angle landmarks.left_shoulder landmarks.left_elbow
        landmarks.left_wrist
      let right_angle := calculate_angle landmarks.right_shoulder landmarks.right_elbow
        landmarks.right_wrist
      let h := push angle_history (Meas.pair left_angle right_angle)
      match sumWith Meas.fst? h, sumWith Meas.snd? h with
      | some sl, some sr =>
        let avg_left := sl / (h.length : ℝ)
        let avg_right := sr / (h.length : ℝ)
        if avg_left > 160 ∧ avg_right > 160 then
          some (true, Feedback.armsRaisedCorrectly, h)
        else
          some (false, Feedback.raiseBothArmsHigher avg_left avg_right, h)
      | _, _ => none
    else if exercise_type = "squat" then
      let knee_angle := calculate_angle landmarks.left_hip landmarks.left_knee
        landmarks.left_ankle
      let h := push angle_history (Meas.scalar knee_angle)
      match sumWith Meas.val? h with
      | some s =>
        let avg_angle := s / (h.length : ℝ)
        if 80 < avg_angle ∧ avg_angle < 100 then
          some (true, Feedback.goodSquatForm avg_angle, h)
        else if avg_angle ≥ 100 then
          some (false, Feedback.squatLower avg_angle, h)
        else
          some (false, Feedback.dontSquatTooLow avg_angle, h)
      | none => none
    else if exercise_type = "shoulder_shrug" then
      let left_distance := landmarks.left_ear.2 - landmarks.left_shoulder.2
      let right_distance := landmarks.right_ear.2 - landmarks.right_shoulder.2
      let h := push angle_history (Meas.pair left_distance right_distance)
      match sumWith Meas.fst? h, sumWith Meas.snd? h with
      | some sl, some sr =>
        let avg_left := sl / (h.length : ℝ)
        let avg_right := sr / (h.length : ℝ)
        if avg_left < 0.15 ∧ avg_right < 0.15 then
          some (true, Feedback.goodShoulderShrug, h)
        else
          some (false, Feedback.raiseShouldersHigher avg_left avg_right, h)
      | _, _ => none
    else if exercise_type = "leg_raise" ∨ exercise_type = "knee_extension" then
      some (false, Feedback.unableToDetect exercise_type, angle_history)
    else
      some (false, Feedback.unknownExerciseType, angle_history)

/-- The fixed cycle of exercises of `main`. -/
def exercises : List String :=
  ["arm_raise", "squat", "leg_raise", "shoulder_shrug", "knee_extension"]

/-- The mutable session state of `main`'s loop: current exercise index,
repetition count, the armed flag `exercise_state`, and the smoothing
history. -/
structure SessionState where
  current_exercise : ℕ
  rep_count : ℕ
  exercise_state : Bool
  angle_history : List Meas

/-- The handler of the key `n` in `main`: advance the exercise index
cyclically, set `rep_count = 0` and clear `angle_history`.  (The source
does not touch `exercise_state` here.) -/
def switchExercise (s : SessionState) : SessionState :=
  { s with
    current_exercise := (s.current_exercise + 1) % exercises.length
    rep_count := 0
    angle_history := [] }

/-- The rep-counting block of `main`: on a correct frame an unarmed state
arms; an armed state counts a rep and disarms; an incorrect frame changes
nothing.  Returns the new `(exercise_state, rep_count)`. -/
def countRep (exercise_state : Bool) (rep_count : ℕ) (is_correct : Bool) : Bool × ℕ :=
  if is_correct then
    if !exercise_state then (true, rep_count)
    else (false, rep_count + 1)
  else (exercise_state, rep_count)

/-- Folding `countRep` over a sequence of per-frame verdicts. -/
def runReps (st : Bool × ℕ) (verdicts : List Bool) : Bool × ℕ :=
  verdicts.foldl (fun p v => countRep p.1 p.2 v) st

/-- Folding `push` over a sequence of measurements. -/
def pushAll (h : List Meas) (ms : List Meas) : List Meas := ms.foldl push h

/-- A history all of whose entries are scalars (as the squat branch leaves
it). -/
def allScalars (h : List Meas) : Prop := ∀ m ∈ h, ∃ x, m = Meas.scalar x

/-- A history all of whose entries are pairs (as the arm-raise and
shoulder-shrug branches leave it). -/
def allPairs (h : List Meas) : Prop := ∀ m ∈ h, ∃ l r, m = Meas.pair l r

/-- A landmark set with every point at the origin, used to instantiate
universally quantified statements. -/
def lm0 : LandmarkSet :=
  ⟨(0, 0), (0, 0), (0, 0), (0, 0), (0, 0), (0, 0), (0, 0), (0, 0), (0, 0), (0, 0), (0, 0)⟩

/-! ### Helper lemmas -/

/-- `atan2` is strictly greater than `-π`. -/
theorem neg_pi_lt_atan2 (y x : ℝ) : -Real.pi < atan2 y x :=
  Complex.neg_pi_lt_arg _

/-- `atan2` is at most `π`. -/
theorem atan2_le_pi (y x : ℝ) : atan2 y x ≤ Real.pi :=
  Complex.arg_le_pi _

/-- A bounded push keeps the length at most 10. -/
theorem push_length_le (h : List Meas) (m : Meas) (hle : h.length ≤ 10) :
    (push h m).length ≤ 10 := by
  simp only [push]
  split_ifs with hc <;>
    simp only [List.length_drop, List.length_append, List.length_cons,
      List.length_nil] at hc ⊢ <;> omega

/-- A bounded push always leaves a nonempty history. -/
theorem push_length_pos (h : List Meas) (m : Meas) : 1 ≤ (push h m).length := by
  simp only [push]
  split_ifs with hc <;>
    simp only [List.length_drop, List.length_append, List.length_cons,
      List.length_nil] at hc ⊢ <;> omega

/-- Every element of `push h m` comes from `h ++ [m]`. -/
theorem mem_push (h : List Meas) (m m' : Meas) (hm : m' ∈ push h m) :
    m' ∈ h ++ [m] := by
  simp only [push] at hm
  split at hm
  · exact List.drop_subset _ _ hm
  · exact hm

/-- Pushing a scalar preserves a history of scalars. -/
theorem allScalars_push {h : List Meas} (hs : allScalars h) (x : ℝ) :
    allScalars (push h (Meas.scalar x)) := by
  intro m hm
  rcases List.mem_append.mp (mem_push _ _ _ hm) with hh | hx
  · exact hs m hh
  · exact ⟨x, by simpa using hx⟩

/-- Pushing a pair preserves a history of pairs. -/
theorem allPairs_push {h : List Meas} (hp : allPairs h) (l r : ℝ) :
    allPairs (push h (Meas.pair l r)) := by
  intro m hm
  rcases List.mem_append.mp (mem_push _ _ _ hm) with hh | hx
  · exact hp m hh
  · exact ⟨l, r, by simpa using hx⟩

/-- When every element projects to `some`, the history sums to `some`. -/
theorem sumWith_isSome {f : Meas → Option ℝ} {h : List Meas}
    (hf : ∀ m ∈ h, (f m).isSome) : ∃ s, sumWith f h = some s := by
  induction h with
  | nil => exact ⟨0, rfl⟩
  | cons a t ih =>
    obtain ⟨b, hb⟩ := Option.isSome_iff_exists.mp (hf a (List.mem_cons_self a t))
    obtain ⟨s, hsum⟩ := ih (fun m hm => hf m (List.mem_cons_of_mem _ hm))
    exact ⟨b + s, by simp [sumWith, hb, hsum]⟩

/-- A history of scalars sums to `some` through `Meas.val?`. -/
theorem sumWith_val_isSome {h : List Meas} (hs : allScalars h) :
    ∃ s, sumWith Meas.val? h = some s :=
  sumWith_isSome (fun m hm => by obtain ⟨x, hx⟩ := hs m hm; subst hx; rfl)

/-- A history of pairs sums to `some` through `Meas.fst?`. -/
theorem sumWith_fst_isSome {h : List Meas} (hp : allPairs h) :
    ∃ s, sumWith Meas.fst? h = some s :=
  sumWith_isSome (fun m hm => by obtain ⟨l, r, hx⟩ := hp m hm; subst hx; rfl)

/-- A history of pairs sums to `some` through `Meas.snd?`. -/
theorem sumWith_snd_isSome {h : List Meas} (hp : allPairs h) :
    ∃ s, sumWith Meas.snd? h = some s :=
  sumWith_isSome (fun m hm => by obtain ⟨l, r, hx⟩ := hp m hm; subst hx; rfl)

/-- Evaluation equation of the squat branch once the sum of the pushed
history is known. -/
theorem verify_squat_eq (lm : LandmarkSet) (hist : List Meas) (s : ℝ)
    (hs : sumWith Meas.val?
      (push hist (Meas.scalar (calculate_angle lm.left_hip lm.left_knee lm.left_ankle))) =
      some s) :
    verify_exercise (some lm) "squat" hist =
      (let h := push hist (Meas.scalar (calculate_angle lm.left_hip lm.left_knee lm.left_ankle))
       let avg_angle := s / (h.length : ℝ)
       if 80 < avg_angle ∧ avg_angle < 100 then
         some (true, Feedback.goodSquatForm avg_angle, h)
       else if avg_angle ≥ 100 then
         some (false, Feedback.squatLower avg_angle, h)
       else
         some (false, Feedback.dontSquatTooLow avg_angle, h)) := by
  have h0 : verify_exercise (some lm) "squat" hist =
      (match sumWith Meas.val?
          (push hist (Meas.scalar (calculate_angle lm.left_hip lm.left_knee lm.left_ankle))) with
       | some s =>
         let h := push hist (Meas.scalar (calculate_angle lm.left_hip lm.left_knee lm.left_ankle))
         let avg_angle := s / (h.length : ℝ)
         if 80 < avg_angle ∧ avg_angle < 100 then
           some (true, Feedback.goodSquatForm avg_angle, h)
         else if avg_angle ≥ 100 then
           some (false, Feedback.squatLower avg_angle, h)
         else
           some (false, Feedback.dontSquatTooLow avg_angle, h)
       | none => none) := rfl
  rw [h0, hs]

/-- Evaluation equation of the arm-raise branch once the two sums over the
pushed history are known. -/
theorem verify_arm_raise_eq (lm : LandmarkSet) (hist : List Meas) (sl sr : ℝ)
    (hl : sumWith Meas.fst?
      (push hist (Meas.pair (calculate_angle lm.left_shoulder lm.left_elbow lm.left_wrist)
        (calculate_angle lm.right_shoulder lm.right_elbow lm.right_wrist))) = some sl)
    (hr : sumWith Meas.snd?
      (push hist (Meas.pair (calculate_angle lm.left_shoulder lm.left_elbow lm.left_wrist)
        (calculate_angle lm.right_shoulder lm.right_elbow lm.right_wrist))) = some sr) :
    verify_exercise (some lm) "arm_raise" hist =
      (let h := push hist (Meas.pair (calculate_angle lm.left_shoulder lm.left_elbow lm.left_wrist)
         (calculate_angle lm.right_shoulder lm.right_elbow lm.right_wrist))
       let avg_left := sl / (h.length : ℝ)
       let avg_right := sr / (h.length : ℝ)
       if avg_left > 160 ∧ avg_right > 160 then
         some (true, Feedback.armsRaisedCorrectly, h)
       else
         some (false, Feedback.raiseBothArmsHigher avg_left avg_right, h)) := by
  have h0 : verify_exercise (some lm) "arm_raise" hist =
      (match sumWith Meas.fst?
          (push hist (Meas.pair (calculate_angle lm.left_shoulder lm.left_elbow lm.left_wrist)
            (calculate_angle lm.right_shoulder lm.right_elbow lm.right_wrist))),
        sumWith Meas.snd?
          (push hist (Meas.pair (calculate_angle lm.left_shoulder lm.left_elbow lm.left_wrist)
            (calculate_angle lm.right_shoulder lm.right_elbow lm.right_wrist))) with
       | some sl, some sr =>
         let h := push hist (Meas.pair (calculate_angle lm.left_shoulder lm.left_elbow lm.left_wrist)
           (calculate_angle lm.right_shoulder lm.right_elbow lm.right_wrist))
         let avg_left := sl / (h.length : ℝ)
         let avg_right := sr / (h.length : ℝ)
         if avg_left > 160 ∧ avg_right > 160 then
           some (true, Feedback.armsRaisedCorrectly, h)
         else
           some (false, Feedback.raiseBothArmsHigher avg_left avg_right, h)
       | _, _ => none) := rfl
  rw [h0, hl, hr]

/-- Evaluation equation of the shoulder-shrug branch once the two sums over
the pushed history are known. -/
theorem verify_shoulder_shrug_eq (lm : LandmarkSet) (hist : List Meas) (sl sr : ℝ)
    (hl : sumWith Meas.fst?
      (push hist (Meas.pair (lm.left_ear.2 - lm.left_shoulder.2)
        (lm.right_ear.2 - lm.right_shoulder.2))) = some sl)
    (hr : sumWith Meas.snd?
      (push hist (Meas.pair (lm.left_ear.2 - lm.left_shoulder.2)
        (lm.right_ear.2 - lm.right_shoulder.2))) = some sr) :
    verify_exercise (some lm) "shoulder_shrug" hist =
      (let h := push hist (Meas.pair (lm.left_ear.2 - lm.left_shoulder.2)
         (lm.right_ear.2 - lm.right_shoulder.2))
       let avg_left := sl / (h.length : ℝ)
       let avg_right := sr / (h.length : ℝ)
       if avg_left < 0.15 ∧ avg_right < 0.15 then
         some (true, Feedback.goodShoulderShrug, h)
       else
         some (false, Feedback.raiseShouldersHigher avg_left avg_right, h)) := by
  have h0 : verify_exercise (some lm) "shoulder_shrug" hist =
      (match sumWith Meas.fst?
          (push hist (Meas.pair (lm.left_ear.2 - lm.left_shoulder.2)
            (lm.right_ear.2 - lm.right_shoulder.2))),
        sumWith Meas.snd?
          (push hist (Meas.pair (lm.left_ear.2 - lm.left_shoulder.2)
            (lm.right_ear.2 - lm.right_shoulder.2))) with
       | some sl, some sr =>
         let h := push hist (Meas.pair (lm.left_ear.2 - lm.left_shoulder.2)
           (lm.right_ear.2 - lm.right_shoulder.2))
         let avg_left := sl / (h.length : ℝ)
         let avg_right := sr / (h.length : ℝ)
         if avg_left < 0.15 ∧ avg_right < 0.15 then
           some (true, Feedback.goodShoulderShrug, h)
         else
           some (false, Feedback.raiseShouldersHigher avg_left avg_right, h)
       | _, _ => none) := rfl
  rw [h0, hl, hr]

/-- Folding bounded pushes from an empty history never exceeds length 10. -/
theorem pushAll_length_le (start : List Meas) (ms : List Meas)
    (hle : start.length ≤ 10) : (pushAll start ms).length ≤ 10 := by
  induction ms generalizing start with
  | nil => exact hle
  | cons m t ih => exact ih (push start m) (push_length_le start m hle)

/-! ### Claim theorems -/

/-- C1 (counterexample): the claim says the switch resets the RepState to
`{repCount = 0, armed = false}` so that no partial state survives; but on a
state that is armed (`exercise_state = true`) the source's key handler only
resets `rep_count` and the history — the armed flag survives the switch
still set to `true`, not `false`. -/
theorem c1_counterexample :
    (switchExercise
      { current_exercise := 3, rep_count := 7, exercise_state := true,
        angle_history := [Meas.scalar 90] }).exercise_state = true ∧
    ¬ ((switchExercise
      { current_exercise := 3, rep_count := 7, exercise_state := true,
        angle_history := [Meas.scalar 90] }).exercise_state = false) :=
  ⟨rfl, by simp [switchExercise]⟩

/-- C1 (amended): the exercise switch advances the current exercise to the
next kind cyclically over the 5 configured kinds, resets `rep_count` to 0
and empties the smoothing history — but it leaves the armed flag
`exercise_state` unchanged, so that piece of partial state does survive the
switch. -/
theorem c1_switch_exercise (s : SessionState) :
    (switchExercise s).current_exercise = (s.current_exercise + 1) % 5 ∧
    (switchExercise s).rep_count = 0 ∧
    (switchExercise s).angle_history = [] ∧
    (switchExercise s).exercise_state = s.exercise_state ∧
    exercises.length = 5 :=
  ⟨rfl, rfl, rfl, rfl, rfl⟩

/-- C2: the repetition counter is a two-state toggle — a true verdict in
Idle arms without counting, a true verdict in Armed counts one rep and
disarms, a false verdict changes nothing; on the verdict sequence
`[false, true, true, false, true]` from a fresh Idle/0 state the count is 1
after the second true, unchanged by the fourth (false) element, still 1
after the fifth element (which re-arms), and a further true makes it 2. -/
theorem c2_rep_counter :
    (∀ c : ℕ, countRep false c true = (true, c)) ∧
    (∀ c : ℕ, countRep true c true = (false, c + 1)) ∧
    (∀ (s : Bool) (c : ℕ), countRep s c false = (s, c)) ∧
    runReps (false, 0) [false, true] = (true, 0) ∧
    runReps (false, 0) [false, true, true] = (false, 1) ∧
    runReps (false, 0) [false, true, true, false] = (false, 1) ∧
    runReps (false, 0) [false, true, true, false, true] = (true, 1) ∧
    runReps (false, 0) [false, true, true, false, true, true] = (false, 2) :=
  ⟨fun _ => rfl, fun _ => rfl, fun _ _ => rfl, rfl, rfl, rfl, rfl, rfl⟩

/-- C4: when no pose is detected, every exercise kind and every history give
the verdict `(false, "No pose detected")`, the history is returned
unchanged, and the evaluation never fails (`some`, never `none`). -/
theorem c4_no_pose (exercise_type : String) (angle_history : List Meas) :
    verify_exercise none exercise_type angle_history =
      some (false, Feedback.noPoseDetected, angle_history) :=
  rfl

/-- C6: the smoothing history never exceeds the capacity 10 under any
sequence of pushes from the initial empty history, and pushing 11
measurements into an empty history leaves exactly the last 10 in insertion
order, the oldest evicted first. -/
theorem c6_bounded_fifo :
    (∀ ms : List Meas, (pushAll [] ms).length ≤ 10) ∧
    (∀ m0 m1 m2 m3 m4 m5 m6 m7 m8 m9 m10 : Meas,
      pushAll [] [m0, m1, m2, m3, m4, m5, m6, m7, m8, m9, m10] =
        [m1, m2, m3, m4, m5, m6, m7, m8, m9, m10]) := by
  refine ⟨fun ms => pushAll_length_le [] ms (by simp), ?_⟩
  intro m0 m1 m2 m3 m4 m5 m6 m7 m8 m9 m10
  simp [pushAll, push]

/-- C9: the repetition count never decreases — each single verdict keeps
`rep_count` at least what it was, and hence any verdict sequence does. -/
theorem c9_rep_count_monotone :
    (∀ (s : Bool) (c : ℕ) (v : Bool), c ≤ (countRep s c v).2) ∧
    (∀ (st : Bool × ℕ) (vs : List Bool), st.2 ≤ (runReps st vs).2) := by
  have step : ∀ (s : Bool) (c : ℕ) (v : Bool), c ≤ (countRep s c v).2 := by
    intro s c v
    cases v <;> cases s <;> simp [countRep]
  refine ⟨step, ?_⟩
  intro st vs
  induction vs generalizing st with
  | nil => exact le_refl _
  | cons v t ih =>
    calc st.2 ≤ (countRep st.1 st.2 v).2 := step st.1 st.2 v
      _ ≤ (runReps (countRep st.1 st.2 v) t).2 := ih _
      _ = (runReps st (v :: t)).2 := rfl

/-- Classification of the squat if-chain by the average. -/
theorem squat_if_spec (avg : ℝ) (h2 : List Meas) :
    ∃ v fb,
      (if 80 < avg ∧ avg < 100 then some (true, Feedback.goodSquatForm avg, h2)
       else if avg ≥ 100 then some (false, Feedback.squatLower avg, h2)
       else some (false, Feedback.dontSquatTooLow avg, h2)) = some (v, fb, h2) ∧
      (v = true ↔ 80 < avg ∧ avg < 100) ∧
      (100 ≤ avg → v = false ∧ fb = Feedback.squatLower avg) ∧
      (avg ≤ 80 → v = false ∧ fb = Feedback.dontSquatTooLow avg) := by
  by_cases hc : 80 < avg ∧ avg < 100
  · exact ⟨true, Feedback.goodSquatForm avg, by rw [if_pos hc], by simpa using hc,
      fun h100 => absurd hc.2 (by linarith), fun h80 => absurd hc.1 (by linarith)⟩
  · by_cases h100 : avg ≥ 100
    · refine ⟨false, Feedback.squatLower avg, by rw [if_neg hc, if_pos h100], ?_,
        fun _ => ⟨rfl, rfl⟩, fun h80 => absurd h100 (by intro hge; linarith)⟩
      exact ⟨fun habs => Bool.noConfusion habs, fun habs => absurd habs hc⟩
    · refine ⟨false, Feedback.dontSquatTooLow avg, by rw [if_neg hc, if_neg h100], ?_,
        fun hge => absurd hge h100, fun _ => ⟨rfl, rfl⟩⟩
      exact ⟨fun habs => Bool.noConfusion habs, fun habs => absurd habs hc⟩

/-- Classification of the arm-raise if-expression by the two averages. -/
theorem arm_if_spec (avgL avgR : ℝ) (h2 : List Meas) :
    ∃ v fb,
      (if avgL > 160 ∧ avgR > 160 then some (true, Feedback.armsRaisedCorrectly, h2)
       else some (false, Feedback.raiseBothArmsHigher avgL avgR, h2)) = some (v, fb, h2) ∧
      (v = true ↔ 160 < avgL ∧ 160 < avgR) ∧
      (v = false → fb = Feedback.raiseBothArmsHigher avgL avgR) := by
  by_cases hc : avgL > 160 ∧ avgR > 160
  · exact ⟨true, Feedback.armsRaisedCorrectly, by rw [if_pos hc], by simpa using hc,
      fun habs => Bool.noConfusion habs⟩
  · refine ⟨false, Feedback.raiseBothArmsHigher avgL avgR, by rw [if_neg hc], ?_, fun _ => rfl⟩
    exact ⟨fun habs => Bool.noConfusion habs, fun habs => absurd habs hc⟩

/-- C3: for the squat with a pose present and a well-shaped history, the
measurement is pushed, the verdict is true iff the average over the pushed
history lies strictly between 80 and 100 (so exactly 80 or exactly 100 is
incorrect), an average at least 100 gives the "Squat lower" feedback, and an
average at most 80 gives the "Don't squat too low" feedback. -/
theorem c3_squat_rule (lm : LandmarkSet) (hist : List Meas) (hwf : allScalars hist) :
    ∃ v fb avg,
      verify_exercise (some lm) "squat" hist = some (v, fb,
        push hist (Meas.scalar (calculate_angle lm.left_hip lm.left_knee lm.left_ankle))) ∧
      avgWith Meas.val?
        (push hist (Meas.scalar (calculate_angle lm.left_hip lm.left_knee lm.left_ankle))) =
        some avg ∧
      (v = true ↔ 80 < avg ∧ avg < 100) ∧
      (100 ≤ avg → v = false ∧ fb = Feedback.squatLower avg) ∧
      (avg ≤ 80 → v = false ∧ fb = Feedback.dontSquatTooLow avg) := by
  obtain ⟨s, hs⟩ := sumWith_val_isSome
    (allScalars_push hwf (calculate_angle lm.left_hip lm.left_knee lm.left_ankle))
  obtain ⟨v, fb, hif, hiff, hhigh, hlow⟩ := squat_if_spec
    (s / (((push hist (Meas.scalar (calculate_angle lm.left_hip lm.left_knee lm.left_ankle))).length : ℝ)))
    (push hist (Meas.scalar (calculate_angle lm.left_hip lm.left_knee lm.left_ankle)))
  refine ⟨v, fb, _, ?_, ?_, hiff, hhigh, hlow⟩
  · rw [verify_squat_eq lm hist s hs]; exact hif
  · simp [avgWith, hs]

/-- C3 witness: the squat rule applied to the degenerate landmark set at the
origin and the empty history. -/
theorem c3_witness :
    allScalars [] ∧
    (∃ v fb avg,
      verify_exercise (some lm0) "squat" [] = some (v, fb,
        push [] (Meas.scalar (calculate_angle lm0.left_hip lm0.left_knee lm0.left_ankle))) ∧
      avgWith Meas.val?
        (push [] (Meas.scalar (calculate_angle lm0.left_hip lm0.left_knee lm0.left_ankle))) =
        some avg ∧
      (v = true ↔ 80 < avg ∧ avg < 100) ∧
      (100 ≤ avg → v = false ∧ fb = Feedback.squatLower avg) ∧
      (avg ≤ 80 → v = false ∧ fb = Feedback.dontSquatTooLow avg)) :=
  ⟨fun m hm => absurd hm (List.not_mem_nil m),
   c3_squat_rule lm0 [] (fun m hm => absurd hm (List.not_mem_nil m))⟩

/-- C5 (counterexample): with the pose absent, evaluating LegRaise returns
the feedback "No pose detected", not "Unable to detect leg_raise properly",
because the no-pose check precedes the per-kind dispatch — so the claim's
"for every landmark set (pose present or absent)" feedback clause fails. -/
theorem c5_counterexample :
    verify_exercise none "leg_raise" [] = some (false, Feedback.noPoseDetected, []) ∧
    Feedback.noPoseDetected ≠ Feedback.unableToDetect "leg_raise" :=
  ⟨rfl, fun habs => Feedback.noConfusion habs⟩

/-- C5 (amended): for every landmark set and history, evaluating LegRaise or
KneeExtension always returns `isCorrect = false` with the history unchanged
and never fails; the feedback is "Unable to detect <kind> properly" when a
pose is present, and "No pose detected" when the pose is absent. -/
theorem c5_unverifiable_kinds (pose_landmarks : Option LandmarkSet)
    (angle_history : List Meas) (exercise_type : String)
    (hk : exercise_type = "leg_raise" ∨ exercise_type = "knee_extension") :
    ∃ fb, verify_exercise pose_landmarks exercise_type angle_history =
        some (false, fb, angle_history) ∧
      (∀ lm, pose_landmarks = some lm → fb = Feedback.unableToDetect exercise_type) ∧
      (pose_landmarks = none → fb = Feedback.noPoseDetected) := by
  cases pose_landmarks with
  | none =>
    exact ⟨Feedback.noPoseDetected, rfl, fun lm habs => Option.noConfusion habs, fun _ => rfl⟩
  | some lm =>
    refine ⟨Feedback.unableToDetect exercise_type, ?_, fun _ _ => rfl,
      fun habs => Option.noConfusion habs⟩
    rcases hk with hk | hk <;> subst hk <;> rfl

/-- C5 witness: the amended rule applied to LegRaise with a pose present and
the empty history. -/
theorem c5_witness :
    (("leg_raise" : String) = "leg_raise" ∨ ("leg_raise" : String) = "knee_extension") ∧
    (∃ fb, verify_exercise (some lm0) "leg_raise" [] = some (false, fb, []) ∧
      (∀ lm, some lm0 = some lm → fb = Feedback.unableToDetect "leg_raise") ∧
      ((some lm0 : Option LandmarkSet) = none → fb = Feedback.noPoseDetected)) :=
  ⟨Or.inl rfl, c5_unverifiable_kinds (some lm0) [] "leg_raise" (Or.inl rfl)⟩

/-- C7: for the arm raise with a pose present and a well-shaped history, the
pair of elbow angles is pushed, the verdict is true iff both per-component
averages over the pushed history exceed 160, and an incorrect verdict's
feedback carries both averages. -/
theorem c7_arm_raise_rule (lm : LandmarkSet) (hist : List Meas) (hwf : allPairs hist) :
    ∃ v fb avgL avgR,
      verify_exercise (some lm) "arm_raise" hist = some (v, fb,
        push hist (Meas.pair (calculate_angle lm.left_shoulder lm.left_elbow lm.left_wrist)
          (calculate_angle lm.right_shoulder lm.right_elbow lm.right_wrist))) ∧
      avgWith Meas.fst?
        (push hist (Meas.pair (calculate_angle lm.left_shoulder lm.left_elbow lm.left_wrist)
          (calculate_angle lm.right_shoulder lm.right_elbow lm.right_wrist))) = some avgL ∧
      avgWith Meas.snd?
        (push hist (Meas.pair (calculate_angle lm.left_shoulder lm.left_elbow lm.left_wrist)
          (calculate_angle lm.right_shoulder lm.right_elbow lm.right_wrist))) = some avgR ∧
      (v = true ↔ 160 < avgL ∧ 160 < avgR) ∧
      (v = false → fb = Feedback.raiseBothArmsHigher avgL avgR) := by
  obtain ⟨sl, hl⟩ := sumWith_fst_isSome (allPairs_push hwf
    (calculate_angle lm.left_shoulder lm.left_elbow lm.left_wrist)
    (calculate_angle lm.right_shoulder lm.right_elbow lm.right_wrist))
  obtain ⟨sr, hr⟩ := sumWith_snd_isSome (allPairs_push hwf
    (calculate_angle lm.left_shoulder lm.left_elbow lm.left_wrist)
    (calculate_angle lm.right_shoulder lm.right_elbow lm.right_wrist))
  obtain ⟨v, fb, hif, hiff, hfb⟩ := arm_if_spec
    (sl / (((push hist (Meas.pair (calculate_angle lm.left_shoulder lm.left_elbow lm.left_wrist)
      (calculate_angle lm.right_shoulder lm.right_elbow lm.right_wrist))).length : ℝ)))
    (sr / (((push hist (Meas.pair (calculate_angle lm.left_shoulder lm.left_elbow lm.left_wrist)
      (calculate_angle lm.right_shoulder lm.right_elbow lm.right_wrist))).length : ℝ)))
    (push hist (Meas.pair (calculate_angle lm.left_shoulder lm.left_elbow lm.left_wrist)
      (calculate_angle lm.right_shoulder lm.right_elbow lm.right_wrist)))
  refine ⟨v, fb, _, _, ?_, ?_, ?_, hiff, hfb⟩
  · rw [verify_arm_raise_eq lm hist sl sr hl hr]; exact hif
  · simp [avgWith, hl]
  · simp [avgWith, hr]

/-- C7 witness: the arm-raise rule applied to the degenerate landmark set at
the origin and the empty history. -/
theorem c7_witness :
    allPairs [] ∧
    (∃ v fb avgL avgR,
      verify_exercise (some lm0) "arm_raise" [] = some (v, fb,
        push [] (Meas.pair (calculate_angle lm0.left_shoulder lm0.left_elbow lm0.left_wrist)
          (calculate_angle lm0.right_shoulder lm0.right_elbow lm0.right_wrist))) ∧
      avgWith Meas.fst?
        (push [] (Meas.pair (calculate_angle lm0.left_shoulder lm0.left_elbow lm0.left_wrist)
          (calculate_angle lm0.right_shoulder lm0.right_elbow lm0.right_wrist))) = some avgL ∧
      avgWith Meas.snd?
        (push [] (Meas.pair (calculate_angle lm0.left_shoulder lm0.left_elbow lm0.left_wrist)
          (calculate_angle lm0.right_shoulder lm0.right_elbow lm0.right_wrist))) = some avgR ∧
      (v = true ↔ 160 < avgL ∧ 160 < avgR) ∧
      (v = false → fb = Feedback.raiseBothArmsHigher avgL avgR)) :=
  ⟨fun m hm => absurd hm (List.not_mem_nil m),
   c7_arm_raise_rule lm0 [] (fun m hm => absurd hm (List.not_mem_nil m))⟩

/-- C8: the angle calculator always returns a value in `[0, 180]` for every
triple of 2-D points, and whenever the first and third points coincide
(`a = c`, any vertex `b`, even all points coincident) the result is 0; the
function is total, with no error case. -/
theorem c8_calculate_angle (a b c : Point) :
    0 ≤ calculate_angle a b c ∧ calculate_angle a b c ≤ 180 ∧ calculate_angle a b a = 0 := by
  have hpi : (0 : ℝ) < Real.pi := Real.pi_pos
  have range : ∀ p q r : Point,
      0 ≤ calculate_angle p q r ∧ calculate_angle p q r ≤ 180 := by
    intro p q r
    have h1 := neg_pi_lt_atan2 (r.2 - q.2) (r.1 - q.1)
    have h2 := atan2_le_pi (r.2 - q.2) (r.1 - q.1)
    have h3 := neg_pi_lt_atan2 (p.2 - q.2) (p.1 - q.1)
    have h4 := atan2_le_pi (p.2 - q.2) (p.1 - q.1)
    simp only [calculate_angle]
    set t1 := atan2 (r.2 - q.2) (r.1 - q.1) with ht1
    set t2 := atan2 (p.2 - q.2) (p.1 - q.1) with ht2
    have hd : |t1 - t2| < 2 * Real.pi := by
      rw [abs_lt]
      exact ⟨by linarith, by linarith⟩
    have habs : |(t1 - t2) * 180 / Real.pi| < 360 := by
      rw [abs_div, abs_of_pos hpi, div_lt_iff₀ hpi, abs_mul]
      have h180 : |(180 : ℝ)| = 180 := by norm_num
      rw [h180]
      linarith
    have h0 : 0 ≤ |(t1 - t2) * 180 / Real.pi| := abs_nonneg _
    split_ifs with hgt
    · exact ⟨by linarith, by linarith⟩
    · exact ⟨h0, by linarith [not_lt.mp hgt]⟩
  refine ⟨(range a b c).1, (range a b c).2, ?_⟩
  simp only [calculate_angle, sub_self]
  norm_num

/-- C10: in every averaging branch (arm raise, squat, shoulder shrug with a
pose present) the measurement is pushed before the average is taken, so the
history used as divisor has length at least 1 — in particular the
evaluation succeeds from the empty history and the returned (pushed)
history is never empty. -/
theorem c10_push_before_average (lm : LandmarkSet) (hist : List Meas) :
    (∀ m, 1 ≤ (push hist m).length) ∧
    (allPairs hist → ∃ v fb h,
      verify_exercise (some lm) "arm_raise" hist = some (v, fb, h) ∧ 1 ≤ h.length) ∧
    (allScalars hist → ∃ v fb h,
      verify_exercise (some lm) "squat" hist = some (v, fb, h) ∧ 1 ≤ h.length) ∧
    (allPairs hist → ∃ v fb h,
      verify_exercise (some lm) "shoulder_shrug" hist = some (v, fb, h) ∧ 1 ≤ h.length) := by
  refine ⟨fun m => push_length_pos hist m, ?_, ?_, ?_⟩
  · intro hp
    obtain ⟨sl, hl⟩ := sumWith_fst_isSome (allPairs_push hp
      (calculate_angle lm.left_shoulder lm.left_elbow lm.left_wrist)
      (calculate_angle lm.right_shoulder lm.right_elbow lm.right_wrist))
    obtain ⟨sr, hr⟩ := sumWith_snd_isSome (allPairs_push hp
      (calculate_angle lm.left_shoulder lm.left_elbow lm.left_wrist)
      (calculate_angle lm.right_shoulder lm.right_elbow lm.right_wrist))
    rw [verify_arm_raise_eq lm hist sl sr hl hr]
    dsimp only
    split_ifs with hc
    · exact ⟨true, Feedback.armsRaisedCorrectly, _, rfl, push_length_pos _ _⟩
    · exact ⟨false, _, _, rfl, push_length_pos _ _⟩
  · intro hsc
    obtain ⟨s, hs⟩ := sumWith_val_isSome (allScalars_push hsc
      (calculate_angle lm.left_hip lm.left_knee lm.left_ankle))
    rw [verify_squat_eq lm hist s hs]
    dsimp only
    split_ifs with hc1 hc2
    · exact ⟨true, _, _, rfl, push_length_pos _ _⟩
    · exact ⟨false, _, _, rfl, push_length_pos _ _⟩
    · exact ⟨false, _, _, rfl, push_length_pos _ _⟩
  · intro hp
    obtain ⟨sl, hl⟩ := sumWith_fst_isSome (allPairs_push hp
      (lm.left_ear.2 - lm.left_shoulder.2) (lm.right_ear.2 - lm.right_shoulder.2))
    obtain ⟨sr, hr⟩ := sumWith_snd_isSome (allPairs_push hp
      (lm.left_ear.2 - lm.left_shoulder.2) (lm.right_ear.2 - lm.right_shoulder.2))
    rw [verify_shoulder_shrug_eq lm hist sl sr hl hr]
    dsimp only
    split_ifs with hc
    · exact ⟨true, _, _, rfl, push_length_pos _ _⟩
    · exact ⟨false, _, _, rfl, push_length_pos _ _⟩

/-- C10 witness: the three averaging branches evaluated from the empty
history at the degenerate landmark set at the origin. -/
theorem c10_witness :
    allPairs [] ∧ allScalars [] ∧
    (∃ v fb h, verify_exercise (some lm0) "arm_raise" [] = some (v, fb, h) ∧ 1 ≤ h.length) ∧
    (∃ v fb h, verify_exercise (some lm0) "squat" [] = some (v, fb, h) ∧ 1 ≤ h.length) ∧
    (∃ v fb h, verify_exercise (some lm0) "shoulder_shrug" [] = some (v, fb, h) ∧
      1 ≤ h.length) := by
  have hp : allPairs [] := fun m hm => absurd hm (List.not_mem_nil m)
  have hsc : allScalars [] := fun m hm => absurd hm (List.not_mem_nil m)
  exact ⟨hp, hsc, (c10_push_before_average lm0 []).2.1 hp,
    (c10_push_before_average lm0 []).2.2.1 hsc, (c10_push_before_average lm0 []).2.2.2 hp⟩
